import Mathlib

/-
Verification of the chip_8 interpreter (src/instruction.rs, src/memory.rs,
src/registers.rs, src/main.rs) against its specification.

Modelling conventions:
* Machine integers (`u8`, `u16`) are carried as `Nat`; wrapping arithmetic is
  written with an explicit `% 256` or `% 65536` where the source wraps.
* The byte arrays `[u8; 0x1000]`, the sixteen data registers, and the host
  pixel buffer are modelled as functions from index to value; `setAt` is the
  in-place array store.
* Fallible operations return `Option`/`Bool` exactly as the source does; a
  Rust panic (a `todo!()` arm or a failed `.unwrap()`) is modelled as `none`.
-/

namespace Chip8

/-- An in-place store into an array modelled as a function from index to
value: every other index keeps its previous content. -/
def setAt (f : Nat → Nat) (i v : Nat) : Nat → Nat :=
  fun j => if j = i then v else f j

/-- The instruction set of src/instruction.rs (`enum Instruction`), one
constructor per variant, operand fields in source order. `u8`/`u16` operand
payloads are carried as `Nat`. -/
inductive Instruction where
  | SystemAddress (address : Nat)
  | ClearScreen
  | Return
  | JumpAddress (address : Nat)
  | CallAddress (address : Nat)
  | SkipEqualRegByte (reg byte : Nat)
  | SkipNotEqualRegByte (reg byte : Nat)
  | SkipEqualRegisters (regs : Nat)
  | LoadByte (reg byte : Nat)
  | AddByte (reg byte : Nat)
  | LoadRegister (regs : Nat)
  | Or (regs : Nat)
  | And (regs : Nat)
  | Xor (regs : Nat)
  | Add (regs : Nat)
  | Sub (regs : Nat)
  | ShiftRight (regs : Nat)
  | SubInverted (regs : Nat)
  | ShiftLeft (regs : Nat)
  | SkipNotEqualReg (regs : Nat)
  | LoadI (address : Nat)
  | JumpAddressOffset (address : Nat)
  | RandRange (reg anded : Nat)
  | Draw (position bytes : Nat)
  | SkipPressed (reg : Nat)
  | SkipNotPressed (reg : Nat)
  | LoadRegisterDelayTimer (reg : Nat)
  | LoadKeyPress (reg : Nat)
  | LoadDelayTimerRegister (reg : Nat)
  | LoadSoundTimerRegister (reg : Nat)
  | AddAddresssRegister (reg : Nat)
  | LoadSpriteAddress (reg : Nat)
  deriving DecidableEq

/-- The decoder of src/instruction.rs (`impl From<u16> for Instruction`),
mirrored arm by arm in the match order of the source. Bit operations on the word
become division and remainder: `value & 0xFFF` is `v % 4096`,
`(value >> 8) as u8` is `v / 256 % 256`, `(value >> 8) as u8 & 0xF` is
`v / 256 % 16`, `(value >> 4) as u8` is `v / 16 % 256`, `value as u8` is
`v % 256`, and `value & 0xF` is `v % 16`. The final `_ => todo!()` arm, which
panics at run time, is modelled as `none`. -/
def Instruction.fromWord (v : Nat) : Option Instruction :=
  if v = 0xE0 then some .ClearScreen
  else if v = 0xEE then some .Return
  else if v ≤ 0xFFF then some (.SystemAddress v)
  else if v ≤ 0x1FFF then some (.JumpAddress (v % 4096))
  else if v ≤ 0x2FFF then some (.CallAddress (v % 4096))
  else if v ≤ 0x3FFF then some (.SkipEqualRegByte (v / 256 % 16) (v % 256))
  else if v ≤ 0x4FFF then some (.SkipNotEqualRegByte (v / 256 % 16) (v % 256))
  else if v ≤ 0x5FFF then
    (if v % 16 = 0 then some (.SkipEqualRegisters (v / 16 % 256)) else none)
  else if v ≤ 0x6FFF then some (.LoadByte (v / 256 % 256) (v % 256))
  else if v ≤ 0x7FFF then some (.AddByte (v / 256 % 16) (v % 256))
  else if v ≤ 0x8FFF then
    (if v % 16 = 0 then some (.LoadRegister (v / 16 % 256))
     else if v % 16 = 1 then some (.Or (v / 16 % 256))
     else if v % 16 = 2 then some (.And (v / 16 % 256))
     else if v % 16 = 3 then some (.Xor (v / 16 % 256))
     else if v % 16 = 4 then some (.Add (v / 16 % 256))
     else if v % 16 = 5 then some (.Sub (v / 16 % 256))
     else if v % 16 = 6 then some (.ShiftRight (v / 16 % 256))
     else if v % 16 = 7 then some (.SubInverted (v / 16 % 256))
     else if v % 16 = 0xE then some (.ShiftLeft (v / 16 % 256))
     else none)
  else if v ≤ 0x9FFF then
    (if v % 16 = 0 then some (.SkipNotEqualReg (v / 16 % 256)) else none)
  else if v ≤ 0xAFFF then some (.LoadI (v % 4096))
  else if v ≤ 0xBFFF then some (.JumpAddressOffset (v % 4096))
  else if v ≤ 0xCFFF then some (.RandRange (v / 256 % 16) (v % 256))
  else if v ≤ 0xDFFF then some (.Draw (v / 256 % 256) (v % 256))
  else if v ≤ 0xEFFF then
    (if v % 256 = 0x9E then some (.SkipPressed (v / 256 % 16))
     else if v % 256 = 0xA1 then some (.SkipNotPressed (v / 256 % 16))
     else none)
  else if v ≤ 0xFFFF then
    (if v % 256 = 0x07 then some (.LoadRegisterDelayTimer (v / 256 % 16))
     else if v % 256 = 0x0A then some (.LoadKeyPress (v / 256 % 16))
     else if v % 256 = 0x15 then some (.LoadDelayTimerRegister (v / 256 % 16))
     else if v % 256 = 0x18 then some (.LoadSoundTimerRegister (v / 256 % 16))
     else if v % 256 = 0x1E then some (.AddAddresssRegister (v / 256 % 16))
     else if v % 256 = 0x29 then some (.LoadSpriteAddress (v / 256 % 16))
     else none)
  else none

/-- Modelled from the spec: the opcode words the decode table of the spec defines.
Written from the words of the claim and the spec (section 4.1), for comparison with
the decoder above: every word is defined except those in a guarded family
(high nibble 5, 8, 9, E or F) whose disambiguator matches no listed case. -/
def definedOpcode (v : Nat) : Bool :=
  if v / 4096 = 5 then (if v % 16 = 0 then true else false)
  else if v / 4096 = 8 then
    (if v % 16 ≤ 7 then true else if v % 16 = 0xE then true else false)
  else if v / 4096 = 9 then (if v % 16 = 0 then true else false)
  else if v / 4096 = 0xE then
    (if v % 256 = 0x9E then true else if v % 256 = 0xA1 then true else false)
  else if v / 4096 = 0xF then
    (if v % 256 = 0x07 then true
     else if v % 256 = 0x0A then true
     else if v % 256 = 0x15 then true
     else if v % 256 = 0x18 then true
     else if v % 256 = 0x1E then true
     else if v % 256 = 0x29 then true
     else false)
  else true

/-- The memory of src/memory.rs: the 4096-byte array `data: [u8; 0x1000]`
(modelled as a function from address to byte) and the stack pointer. -/
structure Memory where
  data : Nat → Nat
  stack_pointer : Nat

/-- The eighty font sprite bytes `Memory::new` (src/memory.rs) preloads at
the bottom of memory, five bytes per hexadecimal digit, in order. -/
def fontBytes : List Nat :=
  [0xF0, 0x90, 0x90, 0x90, 0xF0,
   0x20, 0x60, 0x20, 0x20, 0x70,
   0xF0, 0x10, 0xF0, 0x80, 0xF0,
   0xF0, 0x10, 0xF0, 0x10, 0xF0,
   0x90, 0x90, 0xF0, 0x10, 0x10,
   0xF0, 0x80, 0xF0, 0x10, 0xF0,
   0xF0, 0x80, 0xF0, 0x90, 0xF0,
   0xF0, 0x10, 0x20, 0x40, 0x40,
   0xF0, 0x90, 0xF0, 0x90, 0xF0,
   0xF0, 0x90, 0xF0, 0x10, 0xF0,
   0xF0, 0x90, 0xF0, 0x90, 0x90,
   0xE0, 0x90, 0xE0, 0x90, 0xE0,
   0xF0, 0x80, 0x80, 0x80, 0xF0,
   0xE0, 0x90, 0x90, 0x90, 0xE0,
   0xF0, 0x80, 0xF0, 0x80, 0xF0,
   0xF0, 0x80, 0xF0, 0x80, 0x80]

/-- `Memory::new` (src/memory.rs): font bytes at addresses 0 to 79, every
other byte zero, and the stack pointer at `sprites.len() * 5 = 80`, the first
byte past the font data. -/
def Memory.new : Memory :=
  { data := fun i => fontBytes.getD i 0, stack_pointer := 80 }

/-- `Memory::load` (src/memory.rs): `Some` of the byte for addresses below
the array length 0x1000, `None` otherwise. -/
def Memory.load (m : Memory) (index : Nat) : Option Nat :=
  if index < 0x1000 then some (m.data index) else none

/-- `Memory::store` (src/memory.rs): an address in the protected region
below 0x200 or at 0x1000 and above reports `false` with memory untouched;
any other address is written and reports `true`. -/
def Memory.store (m : Memory) (index value : Nat) : Bool × Memory :=
  if index < 0x200 then (false, m)
  else if 0x1000 ≤ index then (false, m)
  else (true, { m with data := setAt m.data index value })

/-- `Memory::push` (src/memory.rs). The guard mirrors
`self.stack_pointer + 2 >= 0x200 || !(0x200..0x1000).contains(&address)` in
the evaluation order of the source; the two bytes of `address.to_ne_bytes()` are
written in little-endian order (the native order is irrelevant below because
`pop` reassembles the bytes in the same order). The `u16` sum
`stack_pointer + 2` is a plain `Nat` sum: every stack pointer the operations
construct stays below 0x200, far from 16-bit overflow. -/
def Memory.push (m : Memory) (address : Nat) : Bool × Memory :=
  if 0x200 ≤ m.stack_pointer + 2 then (false, m)
  else if address < 0x200 then (false, m)
  else if 0x1000 ≤ address then (false, m)
  else
    (true,
      { data := setAt (setAt m.data m.stack_pointer (address % 256))
          (m.stack_pointer + 1) (address / 256 % 256),
        stack_pointer := m.stack_pointer + 2 })

/-- `Memory::pop` (src/memory.rs): below the literal threshold 82 the state
is returned untouched with `none`; otherwise the stack pointer moves down by
two and the two bytes there are reassembled into the returned address. -/
def Memory.pop (m : Memory) : Option Nat × Memory :=
  if m.stack_pointer < 82 then (none, m)
  else
    (some (m.data (m.stack_pointer - 2) + 256 * m.data (m.stack_pointer - 1)),
      { m with stack_pointer := m.stack_pointer - 2 })

/-- `Memory::slice` (src/memory.rs): the guard is `range.end <= 0xFFF`; on
success the bytes `data[start..stop]` are returned. -/
def Memory.slice (m : Memory) (start stop : Nat) : Option (List Nat) :=
  if stop ≤ 0xFFF then
    some ((List.range (stop - start)).map fun i => m.data (start + i))
  else none

/-- `Memory::slice_mut` (src/memory.rs): the guard is literally
`range.start >= 200 && range.end <= 0xFFF` — the 200 of the source is a decimal
literal, not 0x200. On success the writable byte range is exposed. -/
def Memory.slice_mut (m : Memory) (start stop : Nat) : Option (List Nat) :=
  if 200 ≤ start ∧ stop ≤ 0xFFF then
    some ((List.range (stop - start)).map fun i => m.data (start + i))
  else none

/-- The register file of src/registers.rs: sixteen 8-bit data registers
(modelled as a function from id to value), the 16-bit address register, and
the delay and sound timers. -/
structure Registers where
  data : Nat → Nat
  address : Nat
  delay : Nat
  sound : Nat

/-- `Registers::get_value` (src/registers.rs): `Some` of the register value
for ids below 16, `None` otherwise. -/
def Registers.get_value (r : Registers) (id : Nat) : Option Nat :=
  if id < 16 then some (r.data id) else none

/-- A write through `Registers::get_value_mut` (src/registers.rs); the id
bound check of `get_value_mut` stays at each call site, mirroring each
`.unwrap()` of the interpreter loop. -/
def Registers.set_value (r : Registers) (id value : Nat) : Registers :=
  { r with data := setAt r.data id value }

/-- The mutable state of the interpreter loop in src/main.rs: the program
counter `pointer`, the memory, the registers, the 64 by 32 host pixel buffer
(one `u32` word per pixel, modelled as a function from buffer index to pixel
word), and the local variable `vf` of `main` — which the source declares at
line 38 and assigns in the arithmetic arms but never copies into register
15. -/
structure State where
  pointer : Nat
  memory : Memory
  registers : Registers
  buffer : Nat → Nat
  vf : Bool

/-- `draw_byte` from src/main.rs. For each of the 8 sprite bits, the pixel at
index `y * 64 + (x + j) % 64` is overwritten with the broadcast bit word (the
inner fold over the 32 bits of a `u32` yields 0 or 0xFFFFFFFF); the returned
flag records whether a sprite 1-bit landed on an already set pixel. The
source assigns `*pixel = value` — it does not XOR. -/
def draw_byte (buffer : Nat → Nat) (x y byte : Nat) : Bool × (Nat → Nat) :=
  (List.range 8).foldl
    (fun acc j =>
      let idx := y * 64 + (x + j) % 64
      let bit := (byte >>> (7 - j)) &&& 1
      let value := (List.range 32).foldl (fun result b => result ||| (bit <<< b)) 0
      (acc.1 || decide (value &&& acc.2 idx ≠ 0), setAt acc.2 idx value))
    (false, buffer)

/-- The `for i in 0..u16::from(bytes & 0xF)` loop of the `Draw` arm in
src/main.rs, with `n` the remaining iteration count and `i` the current
index. A failing `memory.load(address + i).unwrap()` panic is `none`. The
`bool` collision result of `draw_byte` is discarded, exactly as at the call
site (line 138). -/
def drawLoop (m : Memory) (address x y : Nat) (buffer : Nat → Nat) :
    Nat → Nat → Option (Nat → Nat)
  | _, 0 => some buffer
  | i, n + 1 =>
    match m.load (address + i) with
    | none => none
    | some byte =>
      drawLoop m address x y
        (draw_byte buffer (x + i / 5) ((i % 5 + y) % 32) byte).2 (i + 1) n

/-- The unconditional `pointer += 2` at the bottom of the interpreter loop
(src/main.rs line 159), as a 16-bit increment. -/
def State.advance (s : State) : State :=
  { s with pointer := (s.pointer + 2) % 65536 }

/-- One pass of the `match instruction` block of src/main.rs (lines 53-158)
followed by the unconditional `pointer += 2` for every arm that falls through
to it. `rand` is the byte drawn by `rand::random::<u8>()`. Arms the source
leaves as `todo!()`, and every failing `.unwrap()`, are `none`; the
`SystemAddress` arm is `continue`, which skips the final increment, so it
returns the state unchanged. In the `CallAddress` arm the `bool` result of
`memory.push(pointer)` is discarded, exactly as in the source. -/
def execute (s : State) (i : Instruction) (rand : Nat) : Option State :=
  match i with
  | .SystemAddress _ => some s
  | .ClearScreen => some (State.advance { s with buffer := fun _ => 0 })
  | .Return =>
    match s.memory.pop with
    | (none, _) => none
    | (some address, m) =>
      some (State.advance { s with memory := m, pointer := address - 2 })
  | .JumpAddress address => some (State.advance { s with pointer := address })
  | .CallAddress address =>
    some (State.advance
      { s with memory := (s.memory.push s.pointer).2, pointer := address })
  | .SkipEqualRegByte reg byte => do
    let v ← s.registers.get_value reg
    some (State.advance (if v = byte then { s with pointer := s.pointer + 2 } else s))
  | .SkipNotEqualRegByte reg byte => do
    let v ← s.registers.get_value reg
    some (State.advance (if v ≠ byte then { s with pointer := s.pointer + 2 } else s))
  | .SkipEqualRegisters regs => do
    let a ← s.registers.get_value (regs % 16)
    let b ← s.registers.get_value (regs / 16)
    some (State.advance (if a = b then { s with pointer := s.pointer + 2 } else s))
  | .LoadByte reg byte => do
    let _ ← s.registers.get_value reg
    some (State.advance { s with registers := s.registers.set_value reg byte })
  | .AddByte reg byte => do
    let v ← s.registers.get_value reg
    some (State.advance
      { s with registers := s.registers.set_value reg ((v + byte) % 256) })
  | .LoadRegister regs => do
    let v ← s.registers.get_value (regs % 16)
    let _ ← s.registers.get_value (regs / 16)
    some (State.advance { s with registers := s.registers.set_value (regs / 16) v })
  | .Or regs => do
    let y ← s.registers.get_value (regs % 16)
    let x ← s.registers.get_value (regs / 16)
    some (State.advance
      { s with registers := s.registers.set_value (regs / 16) (x ||| y) })
  | .And regs => do
    let y ← s.registers.get_value (regs % 16)
    let x ← s.registers.get_value (regs / 16)
    some (State.advance
      { s with registers := s.registers.set_value (regs / 16) (x &&& y) })
  | .Xor regs => do
    let y ← s.registers.get_value (regs % 16)
    let x ← s.registers.get_value (regs / 16)
    some (State.advance
      { s with registers := s.registers.set_value (regs / 16) (x ^^^ y) })
  | .Add regs => do
    let right ← s.registers.get_value (regs % 16)
    let left ← s.registers.get_value (regs / 16)
    some (State.advance
      { s with
        registers := s.registers.set_value (regs / 16) ((left + right) % 256),
        vf := decide (256 ≤ left + right) })
  | .Sub regs => do
    let right ← s.registers.get_value (regs % 16)
    let left ← s.registers.get_value (regs / 16)
    some (State.advance
      { s with
        registers := s.registers.set_value (regs / 16) ((left + 256 - right) % 256),
        vf := decide (left < right) })
  | .ShiftRight regs => do
    let v ← s.registers.get_value (regs % 16)
    some (State.advance
      { s with
        registers := s.registers.set_value (regs % 16) (v / 2),
        vf := decide (v &&& 1 = 1) })
  | .SubInverted regs => do
    let right ← s.registers.get_value (regs % 16)
    let left ← s.registers.get_value (regs / 16)
    some (State.advance
      { s with
        registers := s.registers.set_value (regs / 16) ((right + 256 - left) % 256),
        vf := decide (right < left) })
  | .ShiftLeft reg => do
    let v ← s.registers.get_value (reg % 16)
    some (State.advance
      { s with
        registers := s.registers.set_value (reg % 16) (v * 2 % 256),
        vf := decide (v &&& 0x80 = 0x80) })
  | .SkipNotEqualReg regs => do
    let a ← s.registers.get_value (regs % 16)
    let b ← s.registers.get_value (regs / 16)
    some (State.advance (if a ≠ b then { s with pointer := s.pointer + 2 } else s))
  | .LoadI address =>
    some (State.advance { s with registers := { s.registers with address := address } })
  | .JumpAddressOffset address =>
    some (State.advance { s with pointer := (address + s.registers.address) % 65536 })
  | .RandRange reg anded =>
    some (State.advance
      { s with registers := s.registers.set_value (reg % 16) (rand &&& anded) })
  | .Draw position bytes => do
    let x ← s.registers.get_value (position / 16)
    let y ← s.registers.get_value (position % 16)
    let buffer ← drawLoop s.memory s.registers.address x y s.buffer 0 (bytes % 16)
    some (State.advance { s with buffer := buffer })
  | .SkipPressed _ => none
  | .SkipNotPressed _ => none
  | .LoadRegisterDelayTimer _ => none
  | .LoadKeyPress _ => none
  | .LoadDelayTimerRegister _ => none
  | .LoadSoundTimerRegister _ => none
  | .AddAddresssRegister _ => none
  | .LoadSpriteAddress _ => none

/-- The fetch of src/main.rs lines 43-52:
`u16::from_le_bytes(memory.slice(pointer..pointer + 2).unwrap().try_into().unwrap())`.
`from_le_bytes` makes the byte at `pointer` the LOW byte of the word and the
byte at `pointer + 1` the high byte. A `None` slice (`pointer + 2 > 0xFFF`)
is the `.unwrap()` panic, `none`. -/
def fetch (m : Memory) (pointer : Nat) : Option Nat :=
  (m.slice pointer (pointer + 2)).map fun bytes =>
    bytes.getD 0 0 + 256 * bytes.getD 1 0

/-- The outcome of one iteration of the interpreter loop: the
`pointer >= 0xFFF` break, or a new state. -/
inductive StepResult where
  | halted
  | ran (s : State)

/-- One iteration of the interpreter loop of src/main.rs: the
`pointer >= 0xFFF` halt check, the fetch, the decode (whose `todo!()` arm
panics: `none`), and the execution. The `let Ok(instruction) = ... else`
branch of the source is dead code, because the `TryFrom` in use is the
infallible blanket impl over `From<u16>`. -/
def step (s : State) (rand : Nat) : Option StepResult :=
  if 0xFFF ≤ s.pointer then some .halted
  else
    match fetch s.memory s.pointer with
    | none => none
    | some word =>
      match Instruction.fromWord word with
      | none => none
      | some i => (execute s i rand).map .ran

/-- Registers with all data registers, the address register, and both timers
zero. -/
def regsZero : Registers := { data := fun _ => 0, address := 0, delay := 0, sound := 0 }

/-- An all-dark 64 by 32 host buffer. -/
def bufferZero : Nat → Nat := fun _ => 0

/-- The interpreter state at the top of the first loop iteration of
src/main.rs: program counter 0x200, fresh memory, zeroed registers, dark
buffer, `vf` false. -/
def initialState : State :=
  { pointer := 0x200, memory := Memory.new, registers := regsZero,
    buffer := bufferZero, vf := false }

/-- Memory holding the program bytes 0x12 at 0x200 and 0x34 at 0x201 — the
big-endian encoding of the word 0x1234. -/
def fetchMem : Memory :=
  { Memory.new with data := setAt (setAt Memory.new.data 0x200 0x12) 0x201 0x34 }

/-- Registers with V0 = 250 and V1 = 10, all else zero. -/
def addRegs : Registers :=
  { regsZero with data := setAt (setAt (fun _ => 0) 0 250) 1 10 }

/-- Registers with V0 = 10 and V1 = 5, all else zero. -/
def subRegs : Registers :=
  { regsZero with data := setAt (setAt (fun _ => 0) 0 10) 1 5 }

/-- Registers with V0 = 5 and the address register I = 0x10, all else zero. -/
def offsetRegs : Registers :=
  { regsZero with data := setAt (fun _ => 0) 0 5, address := 0x10 }

/-- Registers for the draw scenario: the `Draw` arm of src/main.rs splits its
first operand byte 0xD0 into register ids 13 and 0, so V13 = 3 supplies the x
origin and V0 = 5 supplies the y origin; the address register I = 0x300. -/
def drawRegs : Registers :=
  { regsZero with data := setAt (setAt (fun _ => 0) 13 3) 0 5, address := 0x300 }

/-- Memory with the single sprite byte 0x80 at address 0x300. -/
def drawMem : Memory := { Memory.new with data := setAt Memory.new.data 0x300 0x80 }

/-- A host buffer with the single pixel at column 3, row 5 lit — buffer index
5 * 64 + 3 = 323. -/
def drawBuffer : Nat → Nat := setAt (fun _ => 0) 323 0xFFFFFFFF

theorem setAt_self (f : Nat → Nat) (i v : Nat) : setAt f i v i = v := by
  simp [setAt]

theorem setAt_other (f : Nat → Nat) (i v j : Nat) (h : j ≠ i) : setAt f i v j = f j := by
  simp [setAt, h]

theorem fromWord_in_0 (v : Nat) (h : v ≤ 0xFFF) (hne1 : v ≠ 0xE0) (hne2 : v ≠ 0xEE) :
    Instruction.fromWord v = some (.SystemAddress v) := by
  unfold Instruction.fromWord
  rw [if_neg hne1, if_neg hne2, if_pos h]

theorem fromWord_in_1 (v : Nat) (h1 : 0x1000 ≤ v) (h2 : v ≤ 0x1FFF) :
    Instruction.fromWord v = some (.JumpAddress (v % 4096)) := by
  unfold Instruction.fromWord
  rw [if_neg (by omega : ¬(v = 0xE0)), if_neg (by omega : ¬(v = 0xEE)),
    if_neg (by omega : ¬(v ≤ 0xFFF)), if_pos h2]

theorem fromWord_in_2 (v : Nat) (h1 : 0x2000 ≤ v) (h2 : v ≤ 0x2FFF) :
    Instruction.fromWord v = some (.CallAddress (v % 4096)) := by
  unfold Instruction.fromWord
  rw [if_neg (by omega : ¬(v = 0xE0)), if_neg (by omega : ¬(v = 0xEE)),
    if_neg (by omega : ¬(v ≤ 0xFFF)), if_neg (by omega : ¬(v ≤ 0x1FFF)), if_pos h2]

theorem fromWord_in_3 (v : Nat) (h1 : 0x3000 ≤ v) (h2 : v ≤ 0x3FFF) :
    Instruction.fromWord v = some (.SkipEqualRegByte (v / 256 % 16) (v % 256)) := by
  unfold Instruction.fromWord
  rw [if_neg (by omega : ¬(v = 0xE0)), if_neg (by omega : ¬(v = 0xEE)),
    if_neg (by omega : ¬(v ≤ 0xFFF)), if_neg (by omega : ¬(v ≤ 0x1FFF)),
    if_neg (by omega : ¬(v ≤ 0x2FFF)), if_pos h2]

theorem fromWord_in_4 (v : Nat) (h1 : 0x4000 ≤ v) (h2 : v ≤ 0x4FFF) :
    Instruction.fromWord v = some (.SkipNotEqualRegByte (v / 256 % 16) (v % 256)) := by
  unfold Instruction.fromWord
  rw [if_neg (by omega : ¬(v = 0xE0)), if_neg (by omega : ¬(v = 0xEE)),
    if_neg (by omega : ¬(v ≤ 0xFFF)), if_neg (by omega : ¬(v ≤ 0x1FFF)),
    if_neg (by omega : ¬(v ≤ 0x2FFF)), if_neg (by omega : ¬(v ≤ 0x3FFF)), if_pos h2]

theorem fromWord_in_5 (v : Nat) (h1 : 0x5000 ≤ v) (h2 : v ≤ 0x5FFF) :
    Instruction.fromWord v =
      (if v % 16 = 0 then some (.SkipEqualRegisters (v / 16 % 256)) else none) := by
  unfold Instruction.fromWord
  rw [if_neg (by omega : ¬(v = 0xE0)), if_neg (by omega : ¬(v = 0xEE)),
    if_neg (by omega : ¬(v ≤ 0xFFF)), if_neg (by omega : ¬(v ≤ 0x1FFF)),
    if_neg (by omega : ¬(v ≤ 0x2FFF)), if_neg (by omega : ¬(v ≤ 0x3FFF)),
    if_neg (by omega : ¬(v ≤ 0x4FFF)), if_pos h2]

theorem fromWord_in_6 (v : Nat) (h1 : 0x6000 ≤ v) (h2 : v ≤ 0x6FFF) :
    Instruction.fromWord v = some (.LoadByte (v / 256 % 256) (v % 256)) := by
  unfold Instruction.fromWord
  rw [if_neg (by omega : ¬(v = 0xE0)), if_neg (by omega : ¬(v = 0xEE)),
    if_neg (by omega : ¬(v ≤ 0xFFF)), if_neg (by omega : ¬(v ≤ 0x1FFF)),
    if_neg (by omega : ¬(v ≤ 0x2FFF)), if_neg (by omega : ¬(v ≤ 0x3FFF)),
    if_neg (by omega : ¬(v ≤ 0x4FFF)), if_neg (by omega : ¬(v ≤ 0x5FFF)), if_pos h2]

theorem fromWord_in_7 (v : Nat) (h1 : 0x7000 ≤ v) (h2 : v ≤ 0x7FFF) :
    Instruction.fromWord v = some (.AddByte (v / 256 % 16) (v % 256)) := by
  unfold Instruction.fromWord
  rw [if_neg (by omega : ¬(v = 0xE0)), if_neg (by omega : ¬(v = 0xEE)),
    if_neg (by omega : ¬(v ≤ 0xFFF)), if_neg (by omega : ¬(v ≤ 0x1FFF)),
    if_neg (by omega : ¬(v ≤ 0x2FFF)), if_neg (by omega : ¬(v ≤ 0x3FFF)),
    if_neg (by omega : ¬(v ≤ 0x4FFF)), if_neg (by omega : ¬(v ≤ 0x5FFF)),
    if_neg (by omega : ¬(v ≤ 0x6FFF)), if_pos h2]

theorem fromWord_in_8 (v : Nat) (h1 : 0x8000 ≤ v) (h2 : v ≤ 0x8FFF) :
    Instruction.fromWord v =
      (if v % 16 = 0 then some (.LoadRegister (v / 16 % 256))
       else if v % 16 = 1 then some (.Or (v / 16 % 256))
       else if v % 16 = 2 then some (.And (v / 16 % 256))
       else if v % 16 = 3 then some (.Xor (v / 16 % 256))
       else if v % 16 = 4 then some (.Add (v / 16 % 256))
       else if v % 16 = 5 then some (.Sub (v / 16 % 256))
       else if v % 16 = 6 then some (.ShiftRight (v / 16 % 256))
       else if v % 16 = 7 then some (.SubInverted (v / 16 % 256))
       else if v % 16 = 0xE then some (.ShiftLeft (v / 16 % 256))
       else none) := by
  unfold Instruction.fromWord
  rw [if_neg (by omega : ¬(v = 0xE0)), if_neg (by omega : ¬(v = 0xEE)),
    if_neg (by omega : ¬(v ≤ 0xFFF)), if_neg (by omega : ¬(v ≤ 0x1FFF)),
    if_neg (by omega : ¬(v ≤ 0x2FFF)), if_neg (by omega : ¬(v ≤ 0x3FFF)),
    if_neg (by omega : ¬(v ≤ 0x4FFF)), if_neg (by omega : ¬(v ≤ 0x5FFF)),
    if_neg (by omega : ¬(v ≤ 0x6FFF)), if_neg (by omega : ¬(v ≤ 0x7FFF)), if_pos h2]

theorem fromWord_in_9 (v : Nat) (h1 : 0x9000 ≤ v) (h2 : v ≤ 0x9FFF) :
    Instruction.fromWord v =
      (if v % 16 = 0 then some (.SkipNotEqualReg (v / 16 % 256)) else none) := by
  unfold Instruction.fromWord
  rw [if_neg (by omega : ¬(v = 0xE0)), if_neg (by omega : ¬(v = 0xEE)),
    if_neg (by omega : ¬(v ≤ 0xFFF)), if_neg (by omega : ¬(v ≤ 0x1FFF)),
    if_neg (by omega : ¬(v ≤ 0x2FFF)), if_neg (by omega : ¬(v ≤ 0x3FFF)),
    if_neg (by omega : ¬(v ≤ 0x4FFF)), if_neg (by omega : ¬(v ≤ 0x5FFF)),
    if_neg (by omega : ¬(v ≤ 0x6FFF)), if_neg (by omega : ¬(v ≤ 0x7FFF)),
    if_neg (by omega : ¬(v ≤ 0x8FFF)), if_pos h2]

theorem fromWord_in_A (v : Nat) (h1 : 0xA000 ≤ v) (h2 : v ≤ 0xAFFF) :
    Instruction.fromWord v = some (.LoadI (v % 4096)) := by
  unfold Instruction.fromWord
  rw [if_neg (by omega : ¬(v = 0xE0)), if_neg (by omega : ¬(v = 0xEE)),
    if_neg (by omega : ¬(v ≤ 0xFFF)), if_neg (by omega : ¬(v ≤ 0x1FFF)),
    if_neg (by omega : ¬(v ≤ 0x2FFF)), if_neg (by omega : ¬(v ≤ 0x3FFF)),
    if_neg (by omega : ¬(v ≤ 0x4FFF)), if_neg (by omega : ¬(v ≤ 0x5FFF)),
    if_neg (by omega : ¬(v ≤ 0x6FFF)), if_neg (by omega : ¬(v ≤ 0x7FFF)),
    if_neg (by omega : ¬(v ≤ 0x8FFF)), if_neg (by omega : ¬(v ≤ 0x9FFF)), if_pos h2]

theorem fromWord_in_B (v : Nat) (h1 : 0xB000 ≤ v) (h2 : v ≤ 0xBFFF) :
    Instruction.fromWord v = some (.JumpAddressOffset (v % 4096)) := by
  unfold Instruction.fromWord
  rw [if_neg (by omega : ¬(v = 0xE0)), if_neg (by omega : ¬(v = 0xEE)),
    if_neg (by omega : ¬(v ≤ 0xFFF)), if_neg (by omega : ¬(v ≤ 0x1FFF)),
    if_neg (by omega : ¬(v ≤ 0x2FFF)), if_neg (by omega : ¬(v ≤ 0x3FFF)),
    if_neg (by omega : ¬(v ≤ 0x4FFF)), if_neg (by omega : ¬(v ≤ 0x5FFF)),
    if_neg (by omega : ¬(v ≤ 0x6FFF)), if_neg (by omega : ¬(v ≤ 0x7FFF)),
    if_neg (by omega : ¬(v ≤ 0x8FFF)), if_neg (by omega : ¬(v ≤ 0x9FFF)),
    if_neg (by omega : ¬(v ≤ 0xAFFF)), if_pos h2]

theorem fromWord_in_C (v : Nat) (h1 : 0xC000 ≤ v) (h2 : v ≤ 0xCFFF) :
    Instruction.fromWord v = some (.RandRange (v / 256 % 16) (v % 256)) := by
  unfold Instruction.fromWord
  rw [if_neg (by omega : ¬(v = 0xE0)), if_neg (by omega : ¬(v = 0xEE)),
    if_neg (by omega : ¬(v ≤ 0xFFF)), if_neg (by omega : ¬(v ≤ 0x1FFF)),
    if_neg (by omega : ¬(v ≤ 0x2FFF)), if_neg (by omega : ¬(v ≤ 0x3FFF)),
    if_neg (by omega : ¬(v ≤ 0x4FFF)), if_neg (by omega : ¬(v ≤ 0x5FFF)),
    if_neg (by omega : ¬(v ≤ 0x6FFF)), if_neg (by omega : ¬(v ≤ 0x7FFF)),
    if_neg (by omega : ¬(v ≤ 0x8FFF)), if_neg (by omega : ¬(v ≤ 0x9FFF)),
    if_neg (by omega : ¬(v ≤ 0xAFFF)), if_neg (by omega : ¬(v ≤ 0xBFFF)), if_pos h2]

theorem fromWord_in_D (v : Nat) (h1 : 0xD000 ≤ v) (h2 : v ≤ 0xDFFF) :
    Instruction.fromWord v = some (.Draw (v / 256 % 256) (v % 256)) := by
  unfold Instruction.fromWord
  rw [if_neg (by omega : ¬(v = 0xE0)), if_neg (by omega : ¬(v = 0xEE)),
    if_neg (by omega : ¬(v ≤ 0xFFF)), if_neg (by omega : ¬(v ≤ 0x1FFF)),
    if_neg (by omega : ¬(v ≤ 0x2FFF)), if_neg (by omega : ¬(v ≤ 0x3FFF)),
    if_neg (by omega : ¬(v ≤ 0x4FFF)), if_neg (by omega : ¬(v ≤ 0x5FFF)),
    if_neg (by omega : ¬(v ≤ 0x6FFF)), if_neg (by omega : ¬(v ≤ 0x7FFF)),
    if_neg (by omega : ¬(v ≤ 0x8FFF)), if_neg (by omega : ¬(v ≤ 0x9FFF)),
    if_neg (by omega : ¬(v ≤ 0xAFFF)), if_neg (by omega : ¬(v ≤ 0xBFFF)),
    if_neg (by omega : ¬(v ≤ 0xCFFF)), if_pos h2]

theorem fromWord_in_E (v : Nat) (h1 : 0xE000 ≤ v) (h2 : v ≤ 0xEFFF) :
    Instruction.fromWord v =
      (if v % 256 = 0x9E then some (.SkipPressed (v / 256 % 16))
       else if v % 256 = 0xA1 then some (.SkipNotPressed (v / 256 % 16))
       else none) := by
  unfold Instruction.fromWord
  rw [if_neg (by omega : ¬(v = 0xE0)), if_neg (by omega : ¬(v = 0xEE)),
    if_neg (by omega : ¬(v ≤ 0xFFF)), if_neg (by omega : ¬(v ≤ 0x1FFF)),
    if_neg (by omega : ¬(v ≤ 0x2FFF)), if_neg (by omega : ¬(v ≤ 0x3FFF)),
    if_neg (by omega : ¬(v ≤ 0x4FFF)), if_neg (by omega : ¬(v ≤ 0x5FFF)),
    if_neg (by omega : ¬(v ≤ 0x6FFF)), if_neg (by omega : ¬(v ≤ 0x7FFF)),
    if_neg (by omega : ¬(v ≤ 0x8FFF)), if_neg (by omega : ¬(v ≤ 0x9FFF)),
    if_neg (by omega : ¬(v ≤ 0xAFFF)), if_neg (by omega : ¬(v ≤ 0xBFFF)),
    if_neg (by omega : ¬(v ≤ 0xCFFF)), if_neg (by omega : ¬(v ≤ 0xDFFF)), if_pos h2]

theorem fromWord_in_F (v : Nat) (h1 : 0xF000 ≤ v) (h2 : v ≤ 0xFFFF) :
    Instruction.fromWord v =
      (if v % 256 = 0x07 then some (.LoadRegisterDelayTimer (v / 256 % 16))
       else if v % 256 = 0x0A then some (.LoadKeyPress (v / 256 % 16))
       else if v % 256 = 0x15 then some (.LoadDelayTimerRegister (v / 256 % 16))
       else if v % 256 = 0x18 then some (.LoadSoundTimerRegister (v / 256 % 16))
       else if v % 256 = 0x1E then some (.AddAddresssRegister (v / 256 % 16))
       else if v % 256 = 0x29 then some (.LoadSpriteAddress (v / 256 % 16))
       else none) := by
  unfold Instruction.fromWord
  rw [if_neg (by omega : ¬(v = 0xE0)), if_neg (by omega : ¬(v = 0xEE)),
    if_neg (by omega : ¬(v ≤ 0xFFF)), if_neg (by omega : ¬(v ≤ 0x1FFF)),
    if_neg (by omega : ¬(v ≤ 0x2FFF)), if_neg (by omega : ¬(v ≤ 0x3FFF)),
    if_neg (by omega : ¬(v ≤ 0x4FFF)), if_neg (by omega : ¬(v ≤ 0x5FFF)),
    if_neg (by omega : ¬(v ≤ 0x6FFF)), if_neg (by omega : ¬(v ≤ 0x7FFF)),
    if_neg (by omega : ¬(v ≤ 0x8FFF)), if_neg (by omega : ¬(v ≤ 0x9FFF)),
    if_neg (by omega : ¬(v ≤ 0xAFFF)), if_neg (by omega : ¬(v ≤ 0xBFFF)),
    if_neg (by omega : ¬(v ≤ 0xCFFF)), if_neg (by omega : ¬(v ≤ 0xDFFF)),
    if_neg (by omega : ¬(v ≤ 0xEFFF)), if_pos h2]

theorem definedOpcode_plain (v : Nat) (h5 : v / 4096 ≠ 5) (h8 : v / 4096 ≠ 8)
    (h9 : v / 4096 ≠ 9) (hE : v / 4096 ≠ 0xE) (hF : v / 4096 ≠ 0xF) :
    definedOpcode v = true := by
  unfold definedOpcode
  rw [if_neg h5, if_neg h8, if_neg h9, if_neg hE, if_neg hF]

theorem definedOpcode_in_5 (v : Nat) (h : v / 4096 = 5) :
    definedOpcode v = (if v % 16 = 0 then true else false) := by
  unfold definedOpcode
  rw [if_pos h]

theorem definedOpcode_in_8 (v : Nat) (h : v / 4096 = 8) :
    definedOpcode v =
      (if v % 16 ≤ 7 then true else if v % 16 = 0xE then true else false) := by
  unfold definedOpcode
  rw [if_neg (by omega : ¬(v / 4096 = 5)), if_pos h]

theorem definedOpcode_in_9 (v : Nat) (h : v / 4096 = 9) :
    definedOpcode v = (if v % 16 = 0 then true else false) := by
  unfold definedOpcode
  rw [if_neg (by omega : ¬(v / 4096 = 5)), if_neg (by omega : ¬(v / 4096 = 8)), if_pos h]

theorem definedOpcode_in_E (v : Nat) (h : v / 4096 = 0xE) :
    definedOpcode v =
      (if v % 256 = 0x9E then true else if v % 256 = 0xA1 then true else false) := by
  unfold definedOpcode
  rw [if_neg (by omega : ¬(v / 4096 = 5)), if_neg (by omega : ¬(v / 4096 = 8)),
    if_neg (by omega : ¬(v / 4096 = 9)), if_pos h]

theorem definedOpcode_in_F (v : Nat) (h : v / 4096 = 0xF) :
    definedOpcode v =
      (if v % 256 = 0x07 then true
       else if v % 256 = 0x0A then true
       else if v % 256 = 0x15 then true
       else if v % 256 = 0x18 then true
       else if v % 256 = 0x1E then true
       else if v % 256 = 0x29 then true
       else false) := by
  unfold definedOpcode
  rw [if_neg (by omega : ¬(v / 4096 = 5)), if_neg (by omega : ¬(v / 4096 = 8)),
    if_neg (by omega : ¬(v / 4096 = 9)), if_neg (by omega : ¬(v / 4096 = 0xE)), if_pos h]

/-- C1 (counterexample): the opcode 0x5001 — high nibble 5 with a nonzero low
nibble — reaches the final `_ => todo!()` arm of the decoder, which panics; decoding
yields no instruction variant, so decoding is not total as claimed. -/
theorem decode_not_total_cex : Instruction.fromWord 0x5001 = none := by rfl

set_option maxHeartbeats 3200000 in
/-- C1 (amended): decoding never panics exactly on the defined opcode
patterns: it yields a variant if and only if the word is outside a guarded
family (high nibble 5, 8, 9, E, F) or carries a listed disambiguator, and
every word in the range 0x0000 to 0x0FFF other than 0x00E0 and 0x00EE decodes
to the ignored system-call variant carrying the address. On the remaining
guarded-family words the decoder hits the `todo!()` panic arm. -/
theorem decode_total_amended (v : Nat) (hv : v < 65536) :
    ((Instruction.fromWord v).isSome = definedOpcode v) ∧
    (v < 0x1000 → v ≠ 0xE0 → v ≠ 0xEE →
      Instruction.fromWord v = some (.SystemAddress v)) := by
  constructor
  · by_cases c0 : v ≤ 0xFFF
    · by_cases cE0 : v = 0xE0
      · subst cE0; rfl
      · by_cases cEE : v = 0xEE
        · subst cEE; rfl
        · rw [fromWord_in_0 v c0 cE0 cEE, definedOpcode_plain v (by omega) (by omega)
            (by omega) (by omega) (by omega)]
          rfl
    · by_cases c1 : v ≤ 0x1FFF
      · rw [fromWord_in_1 v (by omega) c1, definedOpcode_plain v (by omega) (by omega)
          (by omega) (by omega) (by omega)]
        rfl
      · by_cases c2 : v ≤ 0x2FFF
        · rw [fromWord_in_2 v (by omega) c2, definedOpcode_plain v (by omega) (by omega)
            (by omega) (by omega) (by omega)]
          rfl
        · by_cases c3 : v ≤ 0x3FFF
          · rw [fromWord_in_3 v (by omega) c3, definedOpcode_plain v (by omega) (by omega)
              (by omega) (by omega) (by omega)]
            rfl
          · by_cases c4 : v ≤ 0x4FFF
            · rw [fromWord_in_4 v (by omega) c4, definedOpcode_plain v (by omega) (by omega)
                (by omega) (by omega) (by omega)]
              rfl
            · by_cases c5 : v ≤ 0x5FFF
              · rw [fromWord_in_5 v (by omega) c5, definedOpcode_in_5 v (by omega)]
                split_ifs <;> rfl
              · by_cases c6 : v ≤ 0x6FFF
                · rw [fromWord_in_6 v (by omega) c6, definedOpcode_plain v (by omega)
                    (by omega) (by omega) (by omega) (by omega)]
                  rfl
                · by_cases c7 : v ≤ 0x7FFF
                  · rw [fromWord_in_7 v (by omega) c7, definedOpcode_plain v (by omega)
                      (by omega) (by omega) (by omega) (by omega)]
                    rfl
                  · by_cases c8 : v ≤ 0x8FFF
                    · rw [fromWord_in_8 v (by omega) c8, definedOpcode_in_8 v (by omega)]
                      split_ifs <;> first | rfl | omega
                    · by_cases c9 : v ≤ 0x9FFF
                      · rw [fromWord_in_9 v (by omega) c9, definedOpcode_in_9 v (by omega)]
                        split_ifs <;> rfl
                      · by_cases cA : v ≤ 0xAFFF
                        · rw [fromWord_in_A v (by omega) cA, definedOpcode_plain v
                            (by omega) (by omega) (by omega) (by omega) (by omega)]
                          rfl
                        · by_cases cB : v ≤ 0xBFFF
                          · rw [fromWord_in_B v (by omega) cB, definedOpcode_plain v
                              (by omega) (by omega) (by omega) (by omega) (by omega)]
                            rfl
                          · by_cases cC : v ≤ 0xCFFF
                            · rw [fromWord_in_C v (by omega) cC, definedOpcode_plain v
                                (by omega) (by omega) (by omega) (by omega) (by omega)]
                              rfl
                            · by_cases cD : v ≤ 0xDFFF
                              · rw [fromWord_in_D v (by omega) cD, definedOpcode_plain v
                                  (by omega) (by omega) (by omega) (by omega) (by omega)]
                                rfl
                              · by_cases cE : v ≤ 0xEFFF
                                · rw [fromWord_in_E v (by omega) cE,
                                    definedOpcode_in_E v (by omega)]
                                  split_ifs <;> rfl
                                · rw [fromWord_in_F v (by omega) (by omega),
                                    definedOpcode_in_F v (by omega)]
                                  split_ifs <;> rfl
  · intro hlt hne1 hne2
    exact fromWord_in_0 v (by omega) hne1 hne2

/-- Witness for C1 at the concrete opcode 0x8124 (the ALU add 8xy4 family). -/
theorem decode_total_amended_witness :
    (0x8124 : Nat) < 65536 ∧
    (((Instruction.fromWord 0x8124).isSome = definedOpcode 0x8124) ∧
      ((0x8124 : Nat) < 0x1000 → (0x8124 : Nat) ≠ 0xE0 → (0x8124 : Nat) ≠ 0xEE →
        Instruction.fromWord 0x8124 = some (.SystemAddress 0x8124))) :=
  ⟨by omega, decode_total_amended 0x8124 (by omega)⟩

/-- C2: the fetch of src/main.rs reads the word LITTLE-endian. With the bytes
0x12 at address 0x200 and 0x34 at 0x201 — the big-endian encoding of the word
0x1234 the claim describes — the fetched word is 0x3412: the byte at the
program counter becomes the low byte, not the high byte. -/
theorem fetch_little_endian_word : fetch fetchMem 0x200 = some 0x3412 := by rfl

/-- C3: executing `CallAddress 0x300` at program counter 0x200 pushes 0x200
(the address of the call itself, not 0x202), and — because the unconditional
`pointer += 2` also runs after a call — continues at 0x302, not 0x300; the
following `Return` then resumes at 0x200, the call instruction itself, not at
0x202. The stack depth does return to 80. The tuple records, in order: the
program counter after the call, the stack pointer after the call, the 16-bit
word pushed on the stack, the program counter after the return, and the stack
pointer after the return. -/
theorem call_return_behavior :
    ((execute initialState (.CallAddress 0x300) 0).bind fun s1 =>
      (execute s1 .Return 0).map fun s2 =>
        (s1.pointer, s1.memory.stack_pointer,
          s1.memory.data 80 + 256 * s1.memory.data 81,
          s2.pointer, s2.memory.stack_pointer))
      = some (0x302, 82, 0x200, 0x200, 80) := by rfl

/-- C4: executing the Add instruction of opcode 0x8014 with V0 = 250,
V1 = 10 and register 15 zero leaves V0 = 4 as claimed, but register 15 (VF)
stays 0 instead of becoming 1: the carry lands only in the dead local `vf`
variable of `main` (recorded as the third component), which is never copied
into the register file. -/
theorem add_vf_register_unchanged :
    ((execute { initialState with registers := addRegs } (.Add 0x01) 0).map fun s =>
      (s.registers.get_value 0, s.registers.get_value 15, s.vf))
      = some (some 4, some 0, true) := by rfl

/-- C5: executing the Sub instruction of opcode 0x8015 with V0 = 10, V1 = 5
and register 15 zero leaves V0 = 5, but register 15 (VF) stays 0 although
V0 ≥ V1 (no borrow) demands VF = 1; even the dead local `vf` variable
(third component) receives the borrow flag `false` — `u8::overflowing_sub`
reports borrow-occurred, the inverted polarity of the claimed convention. -/
theorem sub_vf_register_unchanged :
    ((execute { initialState with registers := subRegs } (.Sub 0x01) 0).map fun s =>
      (s.registers.get_value 0, s.registers.get_value 15, s.vf))
      = some (some 5, some 0, false) := by rfl

/-- C6: executing the offset jump `JumpAddressOffset 0x300` with V0 = 5 and
address register I = 0x10 sets the program counter to 0x312 = 0x300 + 0x10
+ 2: the source adds `registers.address()` — the I register — instead of V0,
and the unconditional `pointer += 2` still applies. The claim demands
0x300 + 5 = 0x305. -/
theorem jump_offset_uses_address_register :
    ((execute { initialState with registers := offsetRegs } (.JumpAddressOffset 0x300) 0).map
      fun s => s.pointer) = some 0x312 := by rfl

/-- C7: drawing the one-row sprite 0x80 (opcode 0xD011, so the source reads
x = V13 = 3 and y = V0 = 5) over an already lit pixel at (3, 5) leaves that
pixel LIT (the source overwrites with the sprite bit instead of XORing, so
the claimed clearing does not happen), leaves register 15 (VF) at 0 instead
of the claimed 1, and even the local `vf` of `main` stays false because the
collision result of `draw_byte` is discarded at the call site. The tuple
records pixel index 323 = 5 * 64 + 3, register 15, and the local `vf`. -/
theorem draw_overwrites_and_discards_collision :
    ((execute
        { pointer := 0x200, memory := drawMem, registers := drawRegs,
          buffer := drawBuffer, vf := false }
        (.Draw 0xD0 0x11) 0).map fun s =>
      (s.buffer 323, s.registers.get_value 15, s.vf))
      = some (0xFFFFFFFF, some 0, false) := by rfl

/-- C8: `Memory::slice_mut` accepts the range 200..202 — bytes inside the
protected region below 0x200, because the guard of the source compares against the
decimal literal 200 — and rejects the full program region 0x200..0x1000,
because its guard demands `range.end <= 0xFFF`. Both contradict the claim
that exactly the ranges inside the program region are writable; the second
also makes the program-load call `slice_mut(0x200..0x1000).unwrap()` in
src/main.rs panic. -/
theorem slice_mut_boundary :
    (Memory.new.slice_mut 200 202).isSome = true ∧
      Memory.new.slice_mut 0x200 0x1000 = none := ⟨rfl, rfl⟩

/-- C9: `Memory::push` reports failure and returns the state untouched
whenever the pushed address lies outside the program region or the stack
pointer advanced by two would reach 0x200; `Memory::pop` reports the empty
failure with the state untouched exactly when the stack pointer still has its
initial value 80. The hypotheses state the stack-pointer invariant (at least
80, below 0x200, even) that `Memory::new` establishes and every operation
preserves. -/
theorem push_pop_fail_clean (m : Memory) (a : Nat)
    (hlo : 80 ≤ m.stack_pointer) (hhi : m.stack_pointer < 0x200)
    (hev : m.stack_pointer % 2 = 0) :
    ((a < 0x200 ∨ 0x1000 ≤ a ∨ 0x200 ≤ m.stack_pointer + 2) → m.push a = (false, m)) ∧
    ((m.pop).1 = none ↔ m.stack_pointer = 80) ∧
    (m.stack_pointer = 80 → m.pop = (none, m)) := by
  refine ⟨?_, ?_, ?_⟩
  · intro h
    unfold Memory.push
    split_ifs with h1 h2 h3
    · rfl
    · rfl
    · rfl
    · exfalso; omega
  · unfold Memory.pop
    split_ifs with h1
    · simp only [true_iff]
      omega
    · simp only [false_iff]
      omega
  · intro h80
    unfold Memory.pop
    rw [if_pos (by omega)]

/-- Witness for C9 on the fresh memory and the protected address 0x20. -/
theorem push_pop_fail_clean_witness :
    (80 ≤ Memory.new.stack_pointer ∧ Memory.new.stack_pointer < 0x200 ∧
      Memory.new.stack_pointer % 2 = 0) ∧
    ((((0x20 : Nat) < 0x200 ∨ (0x1000 : Nat) ≤ 0x20 ∨
        0x200 ≤ Memory.new.stack_pointer + 2) →
        Memory.new.push 0x20 = (false, Memory.new)) ∧
      ((Memory.new.pop).1 = none ↔ Memory.new.stack_pointer = 80) ∧
      (Memory.new.stack_pointer = 80 → Memory.new.pop = (none, Memory.new))) :=
  ⟨⟨by decide, by decide, by decide⟩,
    push_pop_fail_clean Memory.new 0x20 (by decide) (by decide) (by decide)⟩

/-- C10: when `Memory::push` succeeds, an immediate `Memory::pop` returns the
pushed address and brings the stack pointer back to its value before the
push. The hypothesis `80 ≤ stack pointer` is the invariant every memory
constructible through the API satisfies (`Memory::new` starts at 80 and no
operation goes below it); without it the literal threshold 82 of `pop` could
reject a stack the push just wrote. -/
theorem push_then_pop (m : Memory) (a : Nat) (hsp : 80 ≤ m.stack_pointer)
    (h : (m.push a).1 = true) :
    ((m.push a).2.pop).1 = some a ∧
    ((m.push a).2.pop).2.stack_pointer = m.stack_pointer := by
  unfold Memory.push at h ⊢
  split_ifs at h ⊢ with h1 h2 h3
  unfold Memory.pop
  dsimp only
  rw [if_neg (by omega : ¬(m.stack_pointer + 2 < 82))]
  dsimp only
  constructor
  · simp only [setAt, Option.some.injEq]
    split_ifs <;> omega
  · omega

/-- Witness for C10: pushing the program address 0x234 onto the fresh memory
and popping it back. -/
theorem push_then_pop_witness :
    80 ≤ Memory.new.stack_pointer ∧ (Memory.new.push 0x234).1 = true ∧
    (((Memory.new.push 0x234).2.pop).1 = some 0x234 ∧
      ((Memory.new.push 0x234).2.pop).2.stack_pointer = Memory.new.stack_pointer) :=
  ⟨by decide, by rfl, push_then_pop Memory.new 0x234 (by decide) (by rfl)⟩

end Chip8
